import Mathlib

set_option autoImplicit false

/-!
Verification of the request-dispatch / upstream-adapter core:
`src/app/providers/openliga.py` (TokenBucket, OpenLigaProvider) and
`src/app/decision_mapper.py` (DecisionMapper).

Modelling conventions: Python floats and timestamps are embedded as rationals;
Python/JSON values as the inductive `PyVal` (numeric JSON values as integers);
a raised exception as `Option.none` or `Except.error`; the wall clock and the
random jitter draw as explicit parameters.
-/

namespace Moonshot

/-- A Python/JSON value as produced by `response.json()` or carried in a
request payload. -/
inductive PyVal where
  | vnone : PyVal
  | vbool : Bool → PyVal
  | vint : Int → PyVal
  | vstr : String → PyVal
  | vlist : List PyVal → PyVal
  | vdict : List (String × PyVal) → PyVal

/-- The single-quote character, written via its code point. -/
def squote : String := String.mk [Char.ofNat 39]

mutual

/-- Python `repr(v)` (up to string-escaping details, which no identifier in
this code base needs). -/
def pyRepr : PyVal → String
  | PyVal.vnone => "None"
  | PyVal.vbool b => bif b then "True" else "False"
  | PyVal.vint n => toString n
  | PyVal.vstr s => squote ++ s ++ squote
  | PyVal.vlist xs => "[" ++ pyReprItems xs ++ "]"
  | PyVal.vdict kvs => "\x7b" ++ pyReprEntries kvs ++ "\x7d"

/-- Comma-separated `repr`s of the items of a Python list. -/
def pyReprItems : List PyVal → String
  | [] => ""
  | [x] => pyRepr x
  | x :: y :: xs => pyRepr x ++ ", " ++ pyReprItems (y :: xs)

/-- Comma-separated `repr`s of the entries of a Python dict. -/
def pyReprEntries : List (String × PyVal) → String
  | [] => ""
  | [(k, v)] => squote ++ k ++ squote ++ ": " ++ pyRepr v
  | (k, v) :: e :: es =>
      squote ++ k ++ squote ++ ": " ++ pyRepr v ++ ", " ++ pyReprEntries (e :: es)

end

/-- Python `str(v)`: the string itself for a `str`, `repr` otherwise. -/
def pyStr (v : PyVal) : String :=
  match v with
  | PyVal.vstr s => s
  | _ => pyRepr v

/-- Python `d.get(key, default)`. `Option.none` models the `AttributeError`
raised when `d` is not a dict (there is no `.get` attribute). -/
def PyVal.get (v : PyVal) (k : String) (dflt : PyVal) : Option PyVal :=
  match v with
  | PyVal.vdict kvs => some ((kvs.lookup k).getD dflt)
  | _ => Option.none

/-- Python truthiness, `bool(v)`. -/
def pyTruthy : PyVal → Bool
  | PyVal.vnone => false
  | PyVal.vbool b => b
  | PyVal.vint n => n != 0
  | PyVal.vstr s => s != ""
  | PyVal.vlist xs => !xs.isEmpty
  | PyVal.vdict kvs => !kvs.isEmpty

/-- Whether `v` is a Python list (`isinstance(v, list)`). -/
def PyVal.isList : PyVal → Bool
  | PyVal.vlist _ => true
  | _ => false

/-- Whether `v` is a Python dict (`isinstance(v, dict)`). -/
def PyVal.isDict : PyVal → Bool
  | PyVal.vdict _ => true
  | _ => false

/-- Python `len(v)` for a list, as used on a value known to be a list. -/
def pyListLen : PyVal → Int
  | PyVal.vlist xs => xs.length
  | _ => 0

/-! ## TokenBucket (`src/app/providers/openliga.py`, lines 10-35) -/

/-- State of the `TokenBucket` rate limiter. `burst` is an `int` in the
source; Python ints embed into the rationals. -/
structure TokenBucket where
  rate : ℚ
  burst : ℚ
  tokens : ℚ
  last_update : ℚ

/-- `TokenBucket.__init__(rate, burst)` called at wall-clock time `now`:
the bucket starts full (`tokens = burst`). -/
def TokenBucket.init (rate : ℚ) (burst : ℚ) (now : ℚ) : TokenBucket :=
  { rate := rate, burst := burst, tokens := burst, last_update := now }

/-- The refill value computed at the top of `acquire`:
`min(self.burst, self.tokens + elapsed * self.rate)`. -/
def refilledTokens (b : TokenBucket) (now : ℚ) : ℚ :=
  min b.burst (b.tokens + (now - b.last_update) * b.rate)

/-- `TokenBucket.acquire` as a pure state transition. `now` is the value of
`time.time()` read at entry; `wake` is the value of `time.time()` read after
the `asyncio.sleep` in the waiting branch (ignored in the no-wait branch).
Returns the new state together with the wait passed to `asyncio.sleep`
(`0` when the call returns immediately). -/
def TokenBucket.acquire (b : TokenBucket) (now wake : ℚ) : TokenBucket × ℚ :=
  if 1 ≤ refilledTokens b now then
    ({ b with tokens := refilledTokens b now - 1, last_update := now }, 0)
  else
    ({ b with tokens := 0, last_update := wake }, (1 - refilledTokens b now) / b.rate)

/-- Run a finite sequence of `acquire` calls; each list entry gives the
`(now, wake)` clock readings of one call. -/
def runAcquires (b : TokenBucket) : List (ℚ × ℚ) → TokenBucket
  | [] => b
  | t :: rest => runAcquires (b.acquire t.1 t.2).1 rest

/-- The clock readings of a call sequence are consistent: each call observes
a time no earlier than the previous call's readings (non-negative inter-call
elapsed times). -/
def timesOk : ℚ → List (ℚ × ℚ) → Prop
  | _, [] => True
  | t, c :: rest => t ≤ c.1 ∧ c.1 ≤ c.2 ∧ timesOk c.2 rest

/-! ## OpenLigaProvider fallback search (`openliga.py`, lines 141-183)

`get_team`/`get_match` are modelled relative to an abstract
`fetch : String → Option (List PyVal)` standing for
`await self.get_league_matches(league_id)`: `Option.none` when that call
raises (HTTP error status, empty body, JSON parse failure, network fault after
retries) and `some matches` for the sequence of values the `for` loop
iterates over. A successful lookup is `some value`; the terminal `ValueError`
("not found") is `Option.none`. -/

namespace OpenLigaProvider

/-- The fixed candidate-league list `common_leagues` of `get_team`. -/
def common_leagues : List String := ["bl1", "bl2", "pl", "sa", "ll"]

/-- The inner loop of `get_team` over the matches of one league:
`str(match.get("team1", {}).get("teamId")) == str(team_id)` picks `team1`,
then likewise for `team2`. `Except.error ()` models an exception escaping the
loop body (a non-dict where `.get` is called). -/
def findTeamInMatches (team_id : PyVal) : List PyVal → Except Unit (Option PyVal)
  | [] => Except.ok Option.none
  | m :: ms =>
    match m.get "team1" (PyVal.vdict []) with
    | Option.none => Except.error ()
    | some team1 =>
      match team1.get "teamId" PyVal.vnone with
      | Option.none => Except.error ()
      | some id1 =>
        if pyStr id1 = pyStr team_id then Except.ok (some team1)
        else
          match m.get "team2" (PyVal.vdict []) with
          | Option.none => Except.error ()
          | some team2 =>
            match team2.get "teamId" PyVal.vnone with
            | Option.none => Except.error ()
            | some id2 =>
              if pyStr id2 = pyStr team_id then Except.ok (some team2)
              else findTeamInMatches team_id ms

/-- The outer loop of `get_team`: try each candidate league; any exception
inside the `try` (fetch failure or scan exception) is swallowed by the bare
`except` and scanning continues with the next league. -/
def scanTeamLeagues (team_id : PyVal) (fetch : String → Option (List PyVal)) :
    List String → Option PyVal
  | [] => Option.none
  | league_id :: rest =>
    match fetch league_id with
    | Option.none => scanTeamLeagues team_id fetch rest
    | some ms =>
      match findTeamInMatches team_id ms with
      | Except.error _ => scanTeamLeagues team_id fetch rest
      | Except.ok (some team) => some team
      | Except.ok Option.none => scanTeamLeagues team_id fetch rest

/-- `OpenLigaProvider.get_team`. -/
def get_team (team_id : PyVal) (fetch : String → Option (List PyVal)) : Option PyVal :=
  scanTeamLeagues team_id fetch common_leagues

/-- The inner loop of `get_match` over the matches of the default league:
`str(match.get("matchID")) == str(match_id)` picks the match. -/
def findMatchInMatches (match_id : PyVal) : List PyVal → Except Unit (Option PyVal)
  | [] => Except.ok Option.none
  | m :: ms =>
    match m.get "matchID" PyVal.vnone with
    | Option.none => Except.error ()
    | some mid =>
      if pyStr mid = pyStr match_id then Except.ok (some m)
      else findMatchInMatches match_id ms

/-- `OpenLigaProvider.get_match`: fetches the default league `"bl1"` only;
every failure path (fetch failure, scan exception, id not found) is caught by
the enclosing `except` and re-raised as the final `ValueError`, modelled as
`Option.none`. -/
def get_match (match_id : PyVal) (fetch : String → Option (List PyVal)) : Option PyVal :=
  match fetch "bl1" with
  | Option.none => Option.none
  | some ms =>
    match findMatchInMatches match_id ms with
    | Except.error _ => Option.none
    | Except.ok r => r

/-- Candidate-league list of `get_match`, as the specification describes it:
the single default league. -/
def matchCandidateLeagues : List String := ["bl1"]

/-- Specification-side view of one candidate league in the `get_team` scan:
the team it yields, if fetching succeeds and the linear scan finds a hit. -/
def leagueTeamYield (team_id : PyVal) (fetch : String → Option (List PyVal))
    (league_id : String) : Option PyVal :=
  match fetch league_id with
  | Option.none => Option.none
  | some ms =>
    match findTeamInMatches team_id ms with
    | Except.ok (some team) => some team
    | _ => Option.none

/-- Specification-side view of one candidate league in the `get_match` scan. -/
def leagueMatchYield (match_id : PyVal) (fetch : String → Option (List PyVal))
    (league_id : String) : Option PyVal :=
  match fetch league_id with
  | Option.none => Option.none
  | some ms =>
    match findMatchInMatches match_id ms with
    | Except.ok (some m) => some m
    | _ => Option.none

/-! ## Retry loop (`openliga.py`, lines 55-105) -/

/-- `OpenLigaProvider._calculate_backoff_delay`, with the configuration values
`BACKOFF_BASE_SECONDS` / `BACKOFF_MAX_SECONDS` / `JITTER_ENABLED` and the
value `j` drawn by `random.uniform(0, base_delay * 0.1)` passed explicitly. -/
def calculate_backoff_delay (base maxDelay : ℚ) (jitter_enabled : Bool)
    (j : ℚ) (attempt : ℕ) : ℚ :=
  let base_delay := base * 2 ^ attempt
  if jitter_enabled then min (base_delay + j) maxDelay
  else min base_delay maxDelay

/-- The upstream outcome of one HTTP attempt inside `_request_with_retry`:
either the awaited response, with its status code and whether its declared
content type contains `"text/html"`, or a raised
`httpx.TimeoutException`/`httpx.NetworkError`. -/
inductive Outcome where
  | response : ℕ → Bool → Outcome
  | netError : Outcome

/-- How a `_request_with_retry` call ends: a returned response, the
`ValueError` raised on an HTML body with status 200 (content-type error), or
the re-raised network fault after exhausting retries. -/
inductive ReqResult where
  | returned : ℕ → Bool → ReqResult
  | contentTypeError : ReqResult
  | networkError : ReqResult

/-- The `for attempt in range(MAX_RETRIES + 1)` loop of `_request_with_retry`
from iteration `attempt` on, with `oc` giving the upstream outcome of each
attempt. Returns the loop result together with the number of HTTP attempts
issued from this iteration on. -/
def requestLoop (max_retries : ℕ) (oc : ℕ → Outcome) (attempt : ℕ) :
    ReqResult × ℕ :=
  match oc attempt with
  | Outcome.response status html =>
    if html ∧ status = 200 then (ReqResult.contentTypeError, 1)
    else if status < 500 ∧ status ≠ 429 then (ReqResult.returned status html, 1)
    else if h : attempt < max_retries then
      let r := requestLoop max_retries oc (attempt + 1)
      (r.1, r.2 + 1)
    else (ReqResult.returned status html, 1)
  | Outcome.netError =>
    if h : attempt < max_retries then
      let r := requestLoop max_retries oc (attempt + 1)
      (r.1, r.2 + 1)
    else (ReqResult.networkError, 1)
termination_by max_retries + 1 - attempt
decreasing_by all_goals omega

/-- `OpenLigaProvider._request_with_retry`, starting at attempt `0` with
`MAX_RETRIES = max_retries`. -/
def request_with_retry (max_retries : ℕ) (oc : ℕ → Outcome) : ReqResult × ℕ :=
  requestLoop max_retries oc 0

/-- The outcomes on which the loop retries (or, out of budget, exhausts):
a network fault, or a response that is not the HTML-200 case and has a
retryable status (429 or ≥ 500). -/
def Outcome.isRetryable : Outcome → Bool
  | Outcome.netError => true
  | Outcome.response status html => !(html && status == 200) && (500 ≤ status || status == 429)

/-- A response whose content type carries the HTML marker with status 200. -/
def Outcome.isHtml200 : Outcome → Bool
  | Outcome.response status html => html && status == 200
  | Outcome.netError => false

/-- A response (not a network fault) with status 429 or ≥ 500. -/
def Outcome.isRetryStatusResponse : Outcome → Bool
  | Outcome.response status _ => 500 ≤ status || status == 429
  | Outcome.netError => false

/-- Whether the call ends in a raised error rather than a returned response. -/
def ReqResult.isError : ReqResult → Bool
  | ReqResult.returned _ _ => false
  | ReqResult.contentTypeError => true
  | ReqResult.networkError => true

end OpenLigaProvider

/-! ## DecisionMapper (`src/app/decision_mapper.py`) -/

namespace DecisionMapper

/-- The details dict `\x7b"missing_field": f, "reason": f + " is required"\x7d`
returned when a required payload field is missing or empty. -/
def requiredFieldDetails (field : String) : PyVal :=
  PyVal.vdict [("missing_field", PyVal.vstr field),
               ("reason", PyVal.vstr (field ++ " is required"))]

/-- Shared shape of the three field validators:
`if field not in payload or not payload[field]: return False, details` else
`return True, None`. -/
def validateRequired (field : String) (payload : List (String × PyVal)) :
    Bool × Option PyVal :=
  match payload.lookup field with
  | Option.none => (false, some (requiredFieldDetails field))
  | some v =>
    if pyTruthy v then (true, Option.none)
    else (false, some (requiredFieldDetails field))

/-- `DecisionMapper._validate_list_leagues`: no fields required. -/
def validate_list_leagues (payload : List (String × PyVal)) : Bool × Option PyVal :=
  (true, Option.none)

/-- `DecisionMapper._validate_get_league_matches`. -/
def validate_get_league_matches (payload : List (String × PyVal)) : Bool × Option PyVal :=
  validateRequired "leagueId" payload

/-- `DecisionMapper._validate_get_team`. -/
def validate_get_team (payload : List (String × PyVal)) : Bool × Option PyVal :=
  validateRequired "teamId" payload

/-- `DecisionMapper._validate_get_match`. -/
def validate_get_match (payload : List (String × PyVal)) : Bool × Option PyVal :=
  validateRequired "matchId" payload

/-- `DecisionMapper._normalize_list_leagues`. -/
def normalize_list_leagues (data : PyVal) : PyVal :=
  PyVal.vdict [("leagues", if data.isList then data else PyVal.vlist []),
               ("count", PyVal.vint (if data.isList then pyListLen data else 0))]

/-- `DecisionMapper._normalize_get_league_matches`. -/
def normalize_get_league_matches (data : PyVal) : PyVal :=
  PyVal.vdict [("matches", if data.isList then data else PyVal.vlist []),
               ("count", PyVal.vint (if data.isList then pyListLen data else 0))]

/-- `DecisionMapper._normalize_get_team`. -/
def normalize_get_team (data : PyVal) : PyVal :=
  PyVal.vdict [("team", if data.isDict then data else PyVal.vdict [])]

/-- `DecisionMapper._normalize_get_match`. -/
def normalize_get_match (data : PyVal) : PyVal :=
  PyVal.vdict [("match", if data.isDict then data else PyVal.vdict [])]

end DecisionMapper

namespace OpenLigaProvider

/-- Example team object carrying no `teamId` key. -/
def sampleTeamNoId : PyVal := PyVal.vdict [("teamName", PyVal.vstr "FC Example")]

/-- Example match whose `team1` lacks a `teamId` key. -/
def sampleMatchNoId : PyVal :=
  PyVal.vdict [("matchID", PyVal.vint 99),
               ("team1", sampleTeamNoId),
               ("team2", PyVal.vdict [("teamId", PyVal.vint 7)])]

/-- Example upstream: league `"bl1"` holds the one match above; every other
league fails to fetch. -/
def sampleFetchNoId : String → Option (List PyVal) :=
  fun league_id => if league_id = "bl1" then some [sampleMatchNoId] else Option.none

end OpenLigaProvider

/-! ## Theorems: TokenBucket -/

/-- One `acquire` call keeps `tokens` in `[0, burst]` and leaves `rate` and
`burst` unchanged. -/
theorem acquire_preserves_inv (b : TokenBucket) (now wake : ℚ)
    (h0 : 0 ≤ b.tokens) (h1 : b.tokens ≤ b.burst) :
    0 ≤ ((b.acquire now wake).1).tokens ∧
    ((b.acquire now wake).1).tokens ≤ ((b.acquire now wake).1).burst ∧
    ((b.acquire now wake).1).burst = b.burst ∧
    ((b.acquire now wake).1).rate = b.rate := by
  have hb : 0 ≤ b.burst := le_trans h0 h1
  have hle : refilledTokens b now ≤ b.burst := min_le_left _ _
  unfold TokenBucket.acquire
  by_cases hc : 1 ≤ refilledTokens b now
  · rw [if_pos hc]
    refine ⟨?_, ?_, rfl, rfl⟩
    · show (0 : ℚ) ≤ refilledTokens b now - 1
      linarith
    · show refilledTokens b now - 1 ≤ b.burst
      linarith
  · rw [if_neg hc]
    exact ⟨le_refl 0, hb, rfl, rfl⟩

/-- The invariant `0 ≤ tokens ≤ burst` is preserved by any finite sequence of
`acquire` calls, and `burst` never changes. -/
theorem runAcquires_inv (calls : List (ℚ × ℚ)) :
    ∀ b : TokenBucket, 0 ≤ b.tokens → b.tokens ≤ b.burst →
      0 ≤ (runAcquires b calls).tokens ∧
      (runAcquires b calls).tokens ≤ (runAcquires b calls).burst ∧
      (runAcquires b calls).burst = b.burst := by
  induction calls with
  | nil => intro b h0 h1; exact ⟨h0, h1, rfl⟩
  | cons c rest ih =>
    intro b h0 h1
    have hstep := acquire_preserves_inv b c.1 c.2 h0 h1
    have hrun := ih (b.acquire c.1 c.2).1 hstep.1 hstep.2.1
    exact ⟨hrun.1, hrun.2.1, hrun.2.2.trans hstep.2.2.1⟩

/-- C2: for every finite sequence of `acquire()` calls on a `TokenBucket`
(with any non-negative inter-call elapsed times), the `tokens` field satisfies
`0 ≤ tokens ≤ capacity` at every observation point — after every prefix of the
call sequence — never exceeding the burst capacity and never going negative. -/
theorem c2_tokens_bounded (rate burst t0 : ℚ) (calls : List (ℚ × ℚ)) (i : ℕ)
    (hrate : 0 ≤ rate) (hburst : 0 ≤ burst) (htimes : timesOk t0 calls) :
    0 ≤ (runAcquires (TokenBucket.init rate burst t0) (calls.take i)).tokens ∧
    (runAcquires (TokenBucket.init rate burst t0) (calls.take i)).tokens ≤ burst := by
  have h := runAcquires_inv (calls.take i) (TokenBucket.init rate burst t0)
    (by simpa [TokenBucket.init] using hburst) (by simp [TokenBucket.init])
  exact ⟨h.1, le_of_le_of_eq h.2.1 h.2.2⟩

/-- Witness for C2 at a concrete bucket and call sequence. -/
theorem c2_tokens_bounded_witness :
    0 ≤ (runAcquires (TokenBucket.init 1 5 0) ([((1 : ℚ), (1 : ℚ)), (2, 2)].take 2)).tokens ∧
    (runAcquires (TokenBucket.init 1 5 0) ([((1 : ℚ), (1 : ℚ)), (2, 2)].take 2)).tokens ≤ 5 :=
  c2_tokens_bounded 1 5 0 [(1, 1), (2, 2)] 2 (by norm_num) (by norm_num)
    (by norm_num [timesOk])

/-- C3: `acquire` first refills to `min(capacity, tokens + elapsed * rate)`
and stamps `lastRefillInstant := now`; with at least one token it consumes
exactly one and returns with no wait; otherwise the caller waits
`(1 - tokens) / rate` and on waking `tokens` is set to `0` — independently of
the wake-up time, so the fractional refill earned during the wait is not
credited — and `lastRefillInstant` is set to the wake time. -/
theorem c3_acquire_transition (b : TokenBucket) (now wake : ℚ) :
    (1 ≤ refilledTokens b now →
      b.acquire now wake =
        ({ b with tokens := refilledTokens b now - 1, last_update := now }, 0))
    ∧ (refilledTokens b now < 1 →
      b.acquire now wake =
        ({ b with tokens := 0, last_update := wake },
          (1 - refilledTokens b now) / b.rate))
    ∧ (refilledTokens b now < 1 →
      ∀ wake2 : ℚ, ((b.acquire now wake2).1).tokens = 0) := by
  refine ⟨?_, ?_, ?_⟩
  · intro h
    unfold TokenBucket.acquire
    rw [if_pos h]
  · intro h
    unfold TokenBucket.acquire
    rw [if_neg (not_le.mpr h)]
  · intro h wake2
    unfold TokenBucket.acquire
    rw [if_neg (not_le.mpr h)]

/-- Witness for C3: both branches of the transition at concrete inputs. -/
theorem c3_acquire_transition_witness :
    ((TokenBucket.init 1 5 0).acquire 1 1 =
      ({ TokenBucket.init 1 5 0 with
          tokens := refilledTokens (TokenBucket.init 1 5 0) 1 - 1,
          last_update := 1 }, 0))
    ∧ ((⟨4, 5, 0, 0⟩ : TokenBucket).acquire 0 3 =
      ({ (⟨4, 5, 0, 0⟩ : TokenBucket) with tokens := 0, last_update := 3 },
        (1 - refilledTokens ⟨4, 5, 0, 0⟩ 0) / (⟨4, 5, 0, 0⟩ : TokenBucket).rate))
    ∧ (((⟨4, 5, 0, 0⟩ : TokenBucket).acquire 0 9).1).tokens = 0 := by
  have h5 : (1 : ℚ) ≤ refilledTokens (TokenBucket.init 1 5 0) 1 := by
    norm_num [refilledTokens, TokenBucket.init]
  have h0 : refilledTokens ⟨4, 5, 0, 0⟩ 0 < 1 := by
    norm_num [refilledTokens]
  exact ⟨(c3_acquire_transition (TokenBucket.init 1 5 0) 1 1).1 h5,
    (c3_acquire_transition ⟨4, 5, 0, 0⟩ 0 3).2.1 h0,
    (c3_acquire_transition ⟨4, 5, 0, 0⟩ 0 9).2.2 h0 9⟩

/-! ## Theorems: provider fallback search -/

namespace OpenLigaProvider

/-- The outer loop of `get_team` is a first-some scan of the candidate list:
each league contributes its `leagueTeamYield` and the first hit wins. -/
theorem scanTeamLeagues_eq_findSome (team_id : PyVal)
    (fetch : String → Option (List PyVal)) :
    ∀ ls : List String,
      scanTeamLeagues team_id fetch ls =
        ls.findSome? (leagueTeamYield team_id fetch) := by
  intro ls
  induction ls with
  | nil => rfl
  | cons l rest ih =>
    rw [List.findSome?_cons]
    unfold scanTeamLeagues
    cases hf : fetch l with
    | none =>
      have hy : leagueTeamYield team_id fetch l = Option.none := by
        simp [leagueTeamYield, hf]
      rw [hy]
      simpa using ih
    | some ms =>
      cases hm : findTeamInMatches team_id ms with
      | error e =>
        have hy : leagueTeamYield team_id fetch l = Option.none := by
          simp [leagueTeamYield, hf, hm]
        rw [hy]
        simpa [hm] using ih
      | ok r =>
        cases r with
        | none =>
          have hy : leagueTeamYield team_id fetch l = Option.none := by
            simp [leagueTeamYield, hf, hm]
          rw [hy]
          simpa [hm] using ih
        | some t =>
          have hy : leagueTeamYield team_id fetch l = some t := by
            simp [leagueTeamYield, hf, hm]
          rw [hy]
          simp [hm]

/-- Dropping list elements on which `f` yields nothing leaves a first-some
scan unchanged. -/
theorem findSome?_filter_of_none {α β : Type} (f : α → Option β) (p : α → Bool)
    (h : ∀ a, p a = false → f a = Option.none) :
    ∀ l : List α, l.findSome? f = (l.filter p).findSome? f := by
  intro l
  induction l with
  | nil => rfl
  | cons a rest ih =>
    cases hp : p a with
    | true => simp [List.filter_cons, hp, List.findSome?_cons, ih]
    | false => simp [List.filter_cons, hp, List.findSome?_cons, h a hp, ih]

/-- `get_match` is the same first-some scan over its singleton candidate
list. -/
theorem get_match_eq_findSome (match_id : PyVal)
    (fetch : String → Option (List PyVal)) :
    get_match match_id fetch =
      matchCandidateLeagues.findSome? (leagueMatchYield match_id fetch) := by
  unfold get_match matchCandidateLeagues
  rw [List.findSome?_cons]
  cases hf : fetch "bl1" with
  | none =>
    have hy : leagueMatchYield match_id fetch "bl1" = Option.none := by
      simp [leagueMatchYield, hf]
    rw [hy]
    rfl
  | some ms =>
    cases hm : findMatchInMatches match_id ms with
    | error e =>
      have hy : leagueMatchYield match_id fetch "bl1" = Option.none := by
        simp [leagueMatchYield, hf, hm]
      rw [hy]
      simp [hm]
    | ok r =>
      cases r with
      | none =>
        have hy : leagueMatchYield match_id fetch "bl1" = Option.none := by
          simp [leagueMatchYield, hf, hm]
        rw [hy]
        simp [hm]
      | some m =>
        have hy : leagueMatchYield match_id fetch "bl1" = some m := by
          simp [leagueMatchYield, hf, hm]
        rw [hy]
        simp [hm]

/-- C1: `get_team` and `get_match` each scan a fixed, ordered candidate-league
list (`common_leagues` and the default-league singleton), fetching each league
and linearly scanning its matches; the first hit in scan order wins; a league
whose fetch fails is skipped, so the result equals the scan of the successful
leagues alone; and the result is `NotFound` exactly when no candidate league
yields a hit. -/
theorem c1_candidate_league_scan (team_id match_id : PyVal)
    (fetch : String → Option (List PyVal)) :
    (get_team team_id fetch =
      common_leagues.findSome? (leagueTeamYield team_id fetch))
    ∧ (get_match match_id fetch =
      matchCandidateLeagues.findSome? (leagueMatchYield match_id fetch))
    ∧ (get_team team_id fetch =
      (common_leagues.filter (fun l => (fetch l).isSome)).findSome?
        (leagueTeamYield team_id fetch))
    ∧ (get_team team_id fetch = Option.none ↔
        ∀ l ∈ common_leagues, leagueTeamYield team_id fetch l = Option.none)
    ∧ (get_match match_id fetch = Option.none ↔
        ∀ l ∈ matchCandidateLeagues, leagueMatchYield match_id fetch l = Option.none) := by
  have hteam := scanTeamLeagues_eq_findSome team_id fetch common_leagues
  have hmatch := get_match_eq_findSome match_id fetch
  have hskip : ∀ l : String, ((fetch l).isSome : Bool) = false →
      leagueTeamYield team_id fetch l = Option.none := by
    intro l hl
    unfold leagueTeamYield
    cases hf : fetch l with
    | none => rfl
    | some ms => rw [hf] at hl; simp at hl
  refine ⟨hteam, hmatch, ?_, ?_, ?_⟩
  · rw [show get_team team_id fetch = scanTeamLeagues team_id fetch common_leagues from rfl,
      hteam]
    exact findSome?_filter_of_none _ _ hskip common_leagues
  · rw [show get_team team_id fetch = scanTeamLeagues team_id fetch common_leagues from rfl,
      hteam]
    exact List.findSome?_eq_none_iff
  · rw [hmatch]
    exact List.findSome?_eq_none_iff

/-- C10: `get_team` compares identifiers after coercing both sides with
`str(...)`: an integer upstream `teamId` matches its decimal string form;
a candidate team object lacking a `teamId` key yields `None`, which prints
as the string `"None"`; hence `get_team` on id `"None"` returns the first
scanned team object that has no `teamId` field instead of failing with
`NotFound`. -/
theorem c10_str_coercion (n : Int) (kvs : List (String × PyVal))
    (hk : kvs.lookup "teamId" = Option.none) :
    (pyStr (PyVal.vint n) = pyStr (PyVal.vstr (toString n)))
    ∧ ((PyVal.vdict kvs).get "teamId" PyVal.vnone = some PyVal.vnone
        ∧ pyStr PyVal.vnone = "None")
    ∧ get_team (PyVal.vstr "None") sampleFetchNoId = some sampleTeamNoId
    ∧ get_team (PyVal.vstr "None") sampleFetchNoId ≠ Option.none := by
  have hsome : get_team (PyVal.vstr "None") sampleFetchNoId = some sampleTeamNoId := rfl
  refine ⟨by simp [pyStr, pyRepr], ⟨by simp [PyVal.get, hk], rfl⟩, hsome, ?_⟩
  rw [hsome]
  exact Option.some_ne_none _

/-- Witness for C10 at concrete inputs. -/
theorem c10_str_coercion_witness :
    (pyStr (PyVal.vint 40) = pyStr (PyVal.vstr (toString (40 : Int))))
    ∧ ((PyVal.vdict []).get "teamId" PyVal.vnone = some PyVal.vnone
        ∧ pyStr PyVal.vnone = "None")
    ∧ get_team (PyVal.vstr "None") sampleFetchNoId = some sampleTeamNoId
    ∧ get_team (PyVal.vstr "None") sampleFetchNoId ≠ Option.none :=
  c10_str_coercion 40 [] rfl

end OpenLigaProvider

/-! ## Theorems: retry loop -/

namespace OpenLigaProvider

/-- Unfolding of one loop iteration on a response outcome. -/
theorem requestLoop_response (max_retries : ℕ) (oc : ℕ → Outcome) (attempt s : ℕ)
    (hb : Bool) (hoc : oc attempt = Outcome.response s hb) :
    requestLoop max_retries oc attempt =
      if hb = true ∧ s = 200 then (ReqResult.contentTypeError, 1)
      else if s < 500 ∧ s ≠ 429 then (ReqResult.returned s hb, 1)
      else if attempt < max_retries then
        ((requestLoop max_retries oc (attempt + 1)).1,
          (requestLoop max_retries oc (attempt + 1)).2 + 1)
      else (ReqResult.returned s hb, 1) := by
  rw [requestLoop, hoc]
  rfl

/-- Unfolding of one loop iteration on a network-fault outcome. -/
theorem requestLoop_netError (max_retries : ℕ) (oc : ℕ → Outcome) (attempt : ℕ)
    (hoc : oc attempt = Outcome.netError) :
    requestLoop max_retries oc attempt =
      if attempt < max_retries then
        ((requestLoop max_retries oc (attempt + 1)).1,
          (requestLoop max_retries oc (attempt + 1)).2 + 1)
      else (ReqResult.networkError, 1) := by
  rw [requestLoop, hoc]
  rfl

/-- A retryable response is neither the HTML-200 case nor returnable. -/
theorem isRetryable_response_facts (s : ℕ) (hb : Bool)
    (hre : (Outcome.response s hb).isRetryable = true) :
    ¬(hb = true ∧ s = 200) ∧ ¬(s < 500 ∧ s ≠ 429) := by
  have h' : (!(hb && s == 200) && (decide (500 ≤ s) || s == 429)) = true := hre
  cases hb <;> simp_all <;> omega

/-- A response that is neither the HTML-200 case nor returnable is
retryable. -/
theorem isRetryable_of_not_branches (s : ℕ) (hb : Bool)
    (hA : ¬(hb = true ∧ s = 200)) (hB : ¬(s < 500 ∧ s ≠ 429)) :
    (Outcome.response s hb).isRetryable = true := by
  show (!(hb && s == 200) && (decide (500 ≤ s) || s == 429)) = true
  cases hb <;> simp_all <;> omega

/-- The HTML-200 test in boolean form. -/
theorem isHtml200_response (s : ℕ) (hb : Bool) (h : hb = true ∧ s = 200) :
    (Outcome.response s hb).isHtml200 = true := by
  show (hb && s == 200) = true
  simp [h.1, h.2]

/-- A 429/≥500 response is neither the HTML-200 case nor returnable. -/
theorem isRetryStatus_facts (s : ℕ) (hb : Bool)
    (h : (Outcome.response s hb).isRetryStatusResponse = true) :
    ¬(hb = true ∧ s = 200) ∧ ¬(s < 500 ∧ s ≠ 429) := by
  have h' : (decide (500 ≤ s) || s == 429) = true := h
  constructor
  · rintro ⟨hbt, rfl⟩
    simp_all
  · rintro ⟨hlt, hne⟩
    simp_all
    omega

/-- From iteration `attempt ≤ max_retries` on, the loop issues at most
`max_retries + 1 - attempt` HTTP attempts. -/
theorem requestLoop_count_le (max_retries : ℕ) (oc : ℕ → Outcome) :
    ∀ (n attempt : ℕ), attempt ≤ max_retries → max_retries ≤ attempt + n →
      (requestLoop max_retries oc attempt).2 ≤ max_retries + 1 - attempt := by
  intro n
  induction n with
  | zero =>
    intro attempt h1 h2
    cases hoc : oc attempt with
    | response s hb =>
      rw [requestLoop_response max_retries oc attempt s hb hoc]
      split_ifs with hA hB hC
      · show 1 ≤ max_retries + 1 - attempt
        omega
      · show 1 ≤ max_retries + 1 - attempt
        omega
      · exact absurd hC (by omega)
      · show 1 ≤ max_retries + 1 - attempt
        omega
    | netError =>
      rw [requestLoop_netError max_retries oc attempt hoc]
      split_ifs with hA
      · exact absurd hA (by omega)
      · show 1 ≤ max_retries + 1 - attempt
        omega
  | succ n ih =>
    intro attempt h1 h2
    cases hoc : oc attempt with
    | response s hb =>
      rw [requestLoop_response max_retries oc attempt s hb hoc]
      split_ifs with hA hB hC
      · show 1 ≤ max_retries + 1 - attempt
        omega
      · show 1 ≤ max_retries + 1 - attempt
        omega
      · have hr := ih (attempt + 1) (by omega) (by omega)
        show (requestLoop max_retries oc (attempt + 1)).2 + 1 ≤ max_retries + 1 - attempt
        omega
      · show 1 ≤ max_retries + 1 - attempt
        omega
    | netError =>
      rw [requestLoop_netError max_retries oc attempt hoc]
      split_ifs with hA
      · have hr := ih (attempt + 1) (by omega) (by omega)
        show (requestLoop max_retries oc (attempt + 1)).2 + 1 ≤ max_retries + 1 - attempt
        omega
      · show 1 ≤ max_retries + 1 - attempt
        omega

/-- If every attempt before `k` retries and attempt `k` answers HTML with
status 200, the loop started at `attempt ≤ k` raises the content-type error
after exactly `k + 1 - attempt` attempts. -/
theorem requestLoop_html200 (max_retries : ℕ) (oc : ℕ → Outcome) :
    ∀ (n attempt k : ℕ), attempt ≤ k → k ≤ max_retries → max_retries ≤ attempt + n →
      (oc k).isHtml200 = true →
      (∀ j, attempt ≤ j → j < k → (oc j).isRetryable = true) →
      requestLoop max_retries oc attempt =
        (ReqResult.contentTypeError, k + 1 - attempt) := by
  intro n
  induction n with
  | zero =>
    intro attempt k h1 h2 h3 hk hprev
    have hak : attempt = k := by omega
    subst hak
    cases hoc : oc attempt with
    | netError =>
      rw [hoc] at hk
      exact Bool.noConfusion hk
    | response s hb =>
      rw [hoc] at hk
      have hk' : hb = true ∧ s = 200 := by
        have h' : (hb && s == 200) = true := hk
        cases hb <;> simp_all
      rw [requestLoop_response max_retries oc attempt s hb hoc, if_pos hk']
      rw [show attempt + 1 - attempt = 1 from by omega]
  | succ n ih =>
    intro attempt k h1 h2 h3 hk hprev
    by_cases hak : attempt = k
    · subst hak
      cases hoc : oc attempt with
      | netError =>
        rw [hoc] at hk
        exact Bool.noConfusion hk
      | response s hb =>
        rw [hoc] at hk
        have hk' : hb = true ∧ s = 200 := by
          have h' : (hb && s == 200) = true := hk
          cases hb <;> simp_all
        rw [requestLoop_response max_retries oc attempt s hb hoc, if_pos hk']
        rw [show attempt + 1 - attempt = 1 from by omega]
    · have hlt : attempt < k := by omega
      have hre := hprev attempt (le_refl attempt) hlt
      have hrec := ih (attempt + 1) k (by omega) h2 (by omega) hk
        (fun j hj1 hj2 => hprev j (by omega) hj2)
      cases hoc : oc attempt with
      | netError =>
        rw [requestLoop_netError max_retries oc attempt hoc,
          if_pos (show attempt < max_retries from by omega), hrec]
        show (ReqResult.contentTypeError, (k + 1 - (attempt + 1)) + 1)
          = (ReqResult.contentTypeError, k + 1 - attempt)
        rw [show (k + 1 - (attempt + 1)) + 1 = k + 1 - attempt from by omega]
      | response s hb =>
        rw [hoc] at hre
        have hfacts := isRetryable_response_facts s hb hre
        rw [requestLoop_response max_retries oc attempt s hb hoc,
          if_neg hfacts.1, if_neg hfacts.2,
          if_pos (show attempt < max_retries from by omega), hrec]
        show (ReqResult.contentTypeError, (k + 1 - (attempt + 1)) + 1)
          = (ReqResult.contentTypeError, k + 1 - attempt)
        rw [show (k + 1 - (attempt + 1)) + 1 = k + 1 - attempt from by omega]

/-- If every attempt before the budget retries and the final attempt hits a
network fault, the loop re-raises the network fault after using the whole
budget. -/
theorem requestLoop_netExhaust (max_retries : ℕ) (oc : ℕ → Outcome) :
    ∀ (n attempt : ℕ), attempt ≤ max_retries → max_retries ≤ attempt + n →
      (∀ j, attempt ≤ j → j < max_retries → (oc j).isRetryable = true) →
      oc max_retries = Outcome.netError →
      requestLoop max_retries oc attempt =
        (ReqResult.networkError, max_retries + 1 - attempt) := by
  intro n
  induction n with
  | zero =>
    intro attempt h1 h2 hprev hnet
    have ha : attempt = max_retries := by omega
    have hoc : oc attempt = Outcome.netError := by rw [ha]; exact hnet
    rw [requestLoop_netError max_retries oc attempt hoc,
      if_neg (show ¬attempt < max_retries from by omega)]
    rw [show max_retries + 1 - attempt = 1 from by omega]
  | succ n ih =>
    intro attempt h1 h2 hprev hnet
    by_cases ha : attempt = max_retries
    · have hoc : oc attempt = Outcome.netError := by rw [ha]; exact hnet
      rw [requestLoop_netError max_retries oc attempt hoc,
        if_neg (show ¬attempt < max_retries from by omega)]
      rw [show max_retries + 1 - attempt = 1 from by omega]
    · have hlt : attempt < max_retries := by omega
      have hre := hprev attempt (le_refl attempt) hlt
      have hrec := ih (attempt + 1) (by omega) (by omega)
        (fun j hj1 hj2 => hprev j (by omega) hj2) hnet
      cases hoc : oc attempt with
      | netError =>
        rw [requestLoop_netError max_retries oc attempt hoc, if_pos hlt, hrec]
        show (ReqResult.networkError, (max_retries + 1 - (attempt + 1)) + 1)
          = (ReqResult.networkError, max_retries + 1 - attempt)
        rw [show (max_retries + 1 - (attempt + 1)) + 1 = max_retries + 1 - attempt
          from by omega]
      | response s hb =>
        rw [hoc] at hre
        have hfacts := isRetryable_response_facts s hb hre
        rw [requestLoop_response max_retries oc attempt s hb hoc,
          if_neg hfacts.1, if_neg hfacts.2, if_pos hlt, hrec]
        show (ReqResult.networkError, (max_retries + 1 - (attempt + 1)) + 1)
          = (ReqResult.networkError, max_retries + 1 - attempt)
        rw [show (max_retries + 1 - (attempt + 1)) + 1 = max_retries + 1 - attempt
          from by omega]

/-- If every attempt up to the budget is a response with status 429 or ≥ 500,
the loop returns the final attempt's response unmodified. -/
theorem requestLoop_retryStatus (max_retries : ℕ) (oc : ℕ → Outcome) :
    ∀ (n attempt : ℕ), attempt ≤ max_retries → max_retries ≤ attempt + n →
      (∀ j, attempt ≤ j → j ≤ max_retries → (oc j).isRetryStatusResponse = true) →
      ∀ s hb, oc max_retries = Outcome.response s hb →
        requestLoop max_retries oc attempt =
          (ReqResult.returned s hb, max_retries + 1 - attempt) := by
  intro n
  induction n with
  | zero =>
    intro attempt h1 h2 hall s hb hmr
    have ha : attempt = max_retries := by omega
    have hoc : oc attempt = Outcome.response s hb := by rw [ha]; exact hmr
    have hst := hall attempt (le_refl attempt) h1
    rw [hoc] at hst
    have hfacts := isRetryStatus_facts s hb hst
    rw [requestLoop_response max_retries oc attempt s hb hoc,
      if_neg hfacts.1, if_neg hfacts.2,
      if_neg (show ¬attempt < max_retries from by omega)]
    rw [show max_retries + 1 - attempt = 1 from by omega]
  | succ n ih =>
    intro attempt h1 h2 hall s hb hmr
    by_cases ha : attempt = max_retries
    · have hoc : oc attempt = Outcome.response s hb := by rw [ha]; exact hmr
      have hst := hall attempt (le_refl attempt) h1
      rw [hoc] at hst
      have hfacts := isRetryStatus_facts s hb hst
      rw [requestLoop_response max_retries oc attempt s hb hoc,
        if_neg hfacts.1, if_neg hfacts.2,
        if_neg (show ¬attempt < max_retries from by omega)]
      rw [show max_retries + 1 - attempt = 1 from by omega]
    · have hlt : attempt < max_retries := by omega
      have hst := hall attempt (le_refl attempt) h1
      have hrec := ih (attempt + 1) (by omega) (by omega)
        (fun j hj1 hj2 => hall j (by omega) hj2) s hb hmr
      cases hoc : oc attempt with
      | netError =>
        rw [hoc] at hst
        exact Bool.noConfusion hst
      | response s2 hb2 =>
        rw [hoc] at hst
        have hfacts := isRetryStatus_facts s2 hb2 hst
        rw [requestLoop_response max_retries oc attempt s2 hb2 hoc,
          if_neg hfacts.1, if_neg hfacts.2, if_pos hlt, hrec]
        show (ReqResult.returned s hb, (max_retries + 1 - (attempt + 1)) + 1)
          = (ReqResult.returned s hb, max_retries + 1 - attempt)
        rw [show (max_retries + 1 - (attempt + 1)) + 1 = max_retries + 1 - attempt
          from by omega]

/-- If the loop ends in a raised error, then either some reached attempt was
the HTML-200 case, or every attempt retried and the final one was a network
fault. -/
theorem requestLoop_error_cases (max_retries : ℕ) (oc : ℕ → Outcome) :
    ∀ (n attempt : ℕ), attempt ≤ max_retries → max_retries ≤ attempt + n →
      (requestLoop max_retries oc attempt).1.isError = true →
      (∃ k, attempt ≤ k ∧ k ≤ max_retries ∧ (oc k).isHtml200 = true ∧
        ∀ j, attempt ≤ j → j < k → (oc j).isRetryable = true)
      ∨ ((∀ j, attempt ≤ j → j < max_retries → (oc j).isRetryable = true)
          ∧ oc max_retries = Outcome.netError) := by
  intro n
  induction n with
  | zero =>
    intro attempt h1 h2 herr
    cases hoc : oc attempt with
    | response s hb =>
      rw [requestLoop_response max_retries oc attempt s hb hoc] at herr
      split_ifs at herr with hA hB hC
      · left
        exact ⟨attempt, le_refl attempt, h1,
          by rw [hoc]; exact isHtml200_response s hb hA,
          fun j hj1 hj2 => absurd (lt_of_le_of_lt hj1 hj2) (lt_irrefl attempt)⟩
      · exact Bool.noConfusion herr
      · exact absurd hC (by omega)
      · exact Bool.noConfusion herr
    | netError =>
      rw [requestLoop_netError max_retries oc attempt hoc] at herr
      split_ifs at herr with hA
      · exact absurd hA (by omega)
      · have ha : attempt = max_retries := by omega
        right
        exact ⟨fun j hj1 hj2 => absurd (lt_of_le_of_lt (ha ▸ hj1) hj2)
          (lt_irrefl max_retries), ha ▸ hoc⟩
  | succ n ih =>
    intro attempt h1 h2 herr
    cases hoc : oc attempt with
    | response s hb =>
      rw [requestLoop_response max_retries oc attempt s hb hoc] at herr
      split_ifs at herr with hA hB hC
      · left
        exact ⟨attempt, le_refl attempt, h1,
          by rw [hoc]; exact isHtml200_response s hb hA,
          fun j hj1 hj2 => absurd (lt_of_le_of_lt hj1 hj2) (lt_irrefl attempt)⟩
      · exact Bool.noConfusion herr
      · have herr' : (requestLoop max_retries oc (attempt + 1)).1.isError = true := herr
        have hre : (oc attempt).isRetryable = true := by
          rw [hoc]; exact isRetryable_of_not_branches s hb hA hB
        rcases ih (attempt + 1) (by omega) (by omega) herr' with
          ⟨k, hk1, hk2, hk3, hk4⟩ | ⟨hall, hnet⟩
        · left
          refine ⟨k, by omega, hk2, hk3, ?_⟩
          intro j hj1 hj2
          rcases Nat.eq_or_lt_of_le hj1 with rfl | hj
          · exact hre
          · exact hk4 j (by omega) hj2
        · right
          refine ⟨?_, hnet⟩
          intro j hj1 hj2
          rcases Nat.eq_or_lt_of_le hj1 with rfl | hj
          · exact hre
          · exact hall j (by omega) hj2
      · exact Bool.noConfusion herr
    | netError =>
      rw [requestLoop_netError max_retries oc attempt hoc] at herr
      split_ifs at herr with hA
      · have herr' : (requestLoop max_retries oc (attempt + 1)).1.isError = true := herr
        have hre : (oc attempt).isRetryable = true := by rw [hoc]; rfl
        rcases ih (attempt + 1) (by omega) (by omega) herr' with
          ⟨k, hk1, hk2, hk3, hk4⟩ | ⟨hall, hnet⟩
        · left
          refine ⟨k, by omega, hk2, hk3, ?_⟩
          intro j hj1 hj2
          rcases Nat.eq_or_lt_of_le hj1 with rfl | hj
          · exact hre
          · exact hk4 j (by omega) hj2
        · right
          refine ⟨?_, hnet⟩
          intro j hj1 hj2
          rcases Nat.eq_or_lt_of_le hj1 with rfl | hj
          · exact hre
          · exact hall j (by omega) hj2
      · have ha : attempt = max_retries := by omega
        right
        exact ⟨fun j hj1 hj2 => absurd (lt_of_le_of_lt (ha ▸ hj1) hj2)
          (lt_irrefl max_retries), ha ▸ hoc⟩

/-- C4: `_request_with_retry` raises an error if and only if either some
reached attempt receives an HTML body with status 200 (content-type error) or
every attempt retries and the final attempt hits a network fault
(timeout/connection error with retries exhausted); in every other case it
returns a response — in particular, when every attempt yields a response with
status 429 or ≥ 500, the last such response is returned unmodified rather
than raised. -/
theorem c4_error_iff (max_retries : ℕ) (oc : ℕ → Outcome) :
    ((request_with_retry max_retries oc).1.isError = true ↔
      ((∃ k, k ≤ max_retries ∧ (oc k).isHtml200 = true ∧
        ∀ j, j < k → (oc j).isRetryable = true)
      ∨ ((∀ j, j < max_retries → (oc j).isRetryable = true)
          ∧ oc max_retries = Outcome.netError)))
    ∧ ((∀ j, j ≤ max_retries → (oc j).isRetryStatusResponse = true) →
        ∀ s hb, oc max_retries = Outcome.response s hb →
          (request_with_retry max_retries oc).1 = ReqResult.returned s hb) := by
  constructor
  · constructor
    · intro herr
      rcases requestLoop_error_cases max_retries oc max_retries 0 (by omega)
          (by omega) herr with ⟨k, _, hk2, hk3, hk4⟩ | ⟨hall, hnet⟩
      · exact Or.inl ⟨k, hk2, hk3, fun j hj => hk4 j (by omega) hj⟩
      · exact Or.inr ⟨fun j hj => hall j (by omega) hj, hnet⟩
    · intro h
      rcases h with ⟨k, hk1, hk2, hk3⟩ | ⟨hall, hnet⟩
      · have heq := requestLoop_html200 max_retries oc max_retries 0 k (by omega)
          hk1 (by omega) hk2 (fun j hj1 hj2 => hk3 j hj2)
        unfold request_with_retry
        rw [heq]
        rfl
      · have heq := requestLoop_netExhaust max_retries oc max_retries 0 (by omega)
          (by omega) (fun j hj1 hj2 => hall j hj2) hnet
        unfold request_with_retry
        rw [heq]
        rfl
  · intro hall s hb hmr
    have heq := requestLoop_retryStatus max_retries oc max_retries 0 (by omega)
      (by omega) (fun j hj1 hj2 => hall j hj2) s hb hmr
    unfold request_with_retry
    rw [heq]

/-- Witness for C4 at a concrete budget and outcome sequence: two attempts of
status 503, final response returned unmodified. -/
theorem c4_error_iff_witness :
    (request_with_retry 1 (fun _ => Outcome.response 503 false)).1 =
      ReqResult.returned 503 false :=
  (c4_error_iff 1 (fun _ => Outcome.response 503 false)).2
    (fun j hj => rfl) 503 false rfl

/-- C5: whenever the loop reaches an attempt whose response carries the HTML
marker with status 200, the call raises the content-type error on that very
attempt — the attempt count stops at `k + 1` — regardless of how much retry
budget remains. -/
theorem c5_html200_no_retry (max_retries k : ℕ) (oc : ℕ → Outcome)
    (hk : k ≤ max_retries) (hhtml : (oc k).isHtml200 = true)
    (hprev : ∀ j, j < k → (oc j).isRetryable = true) :
    request_with_retry max_retries oc = (ReqResult.contentTypeError, k + 1) := by
  have heq := requestLoop_html200 max_retries oc max_retries 0 k (by omega) hk
    (by omega) hhtml (fun j hj1 hj2 => hprev j hj2)
  unfold request_with_retry
  rw [heq]
  rfl

/-- Witness for C5: HTML 200 on the very first attempt with a large remaining
budget; exactly one attempt is issued. -/
theorem c5_html200_no_retry_witness :
    request_with_retry 5 (fun _ => Outcome.response 200 true) =
      (ReqResult.contentTypeError, 1) :=
  c5_html200_no_retry 5 0 (fun _ => Outcome.response 200 true) (by omega) rfl
    (fun j hj => absurd hj (Nat.not_lt_zero j))

/-- C6: for every retry budget and every outcome sequence, the retry loop
terminates (it is a total function of its inputs) and issues at most
`maxRetries + 1` HTTP attempts; no input produces an unbounded retry path. -/
theorem c6_attempts_bounded (max_retries : ℕ) (oc : ℕ → Outcome) :
    (request_with_retry max_retries oc).2 ≤ max_retries + 1 := by
  have h := requestLoop_count_le max_retries oc max_retries 0 (by omega) (by omega)
  simpa [request_with_retry] using h

/-- C7: `_calculate_backoff_delay(attempt)` equals
`min(base * 2^attempt + jitter, maxDelay)`, where the jitter drawn by
`random.uniform(0, base_delay * 0.1)` lies in `[0, base * 2^attempt * (1/10)]`
when jitter is enabled and is `0` otherwise; with jitter disabled the delay is
non-decreasing in `attempt`, and the delay never exceeds `maxDelay` either
way. -/
theorem c7_backoff_delay (base maxDelay j : ℚ) (a a2 : ℕ) (je : Bool)
    (hbase : 0 ≤ base) (hj0 : 0 ≤ j) (hj1 : j ≤ base * 2 ^ a * (1 / 10))
    (hle : a ≤ a2) :
    (calculate_backoff_delay base maxDelay true j a =
      min (base * 2 ^ a + j) maxDelay)
    ∧ (calculate_backoff_delay base maxDelay false j a =
      min (base * 2 ^ a + 0) maxDelay)
    ∧ (calculate_backoff_delay base maxDelay false j a ≤
      calculate_backoff_delay base maxDelay false j a2)
    ∧ (calculate_backoff_delay base maxDelay je j a ≤ maxDelay) := by
  have hmono : base * 2 ^ a ≤ base * 2 ^ a2 :=
    mul_le_mul_of_nonneg_left (pow_le_pow_right₀ (by norm_num) hle) hbase
  refine ⟨rfl, ?_, ?_, ?_⟩
  · show min (base * 2 ^ a) maxDelay = min (base * 2 ^ a + 0) maxDelay
    rw [add_zero]
  · show min (base * 2 ^ a) maxDelay ≤ min (base * 2 ^ a2) maxDelay
    exact min_le_min hmono (le_refl maxDelay)
  · cases je
    · exact min_le_right _ _
    · exact min_le_right _ _

/-- Witness for C7 at concrete configuration values. -/
theorem c7_backoff_delay_witness :
    (calculate_backoff_delay 1 30 true 0 0 = min ((1 : ℚ) * 2 ^ 0 + 0) 30)
    ∧ (calculate_backoff_delay 1 30 false 0 0 = min ((1 : ℚ) * 2 ^ 0 + 0) 30)
    ∧ (calculate_backoff_delay 1 30 false 0 0 ≤ calculate_backoff_delay 1 30 false 0 1)
    ∧ (calculate_backoff_delay 1 30 true 0 0 ≤ 30) :=
  c7_backoff_delay 1 30 0 0 1 true (by norm_num) (le_refl 0) (by norm_num)
    (by norm_num)

end OpenLigaProvider

/-! ## Theorems: DecisionMapper -/

namespace DecisionMapper

/-- Shared behaviour of the three required-field validators over string-valued
payloads: failure exactly on a missing or empty field, and failure details
naming the field. -/
theorem validateRequired_fail_iff (field : String) (payload : List (String × PyVal))
    (hs : ∀ p ∈ payload, ∃ s : String, p.2 = PyVal.vstr s) :
    ((validateRequired field payload).1 = false ↔
      payload.lookup field = Option.none ∨
      payload.lookup field = some (PyVal.vstr ""))
    ∧ ((validateRequired field payload).1 = false →
      (validateRequired field payload).2 = some (requiredFieldDetails field)) := by
  unfold validateRequired
  cases hl : payload.lookup field with
  | none => simp
  | some v =>
    have hmem : (field, v) ∈ payload := by
      rcases List.lookup_eq_some_iff.mp hl with ⟨l1, l2, hsplit, -⟩
      rw [hsplit]
      exact List.mem_append_right _ (List.mem_cons_self _ _)
    obtain ⟨s, hv⟩ := hs (field, v) hmem
    subst hv
    by_cases hse : s = ""
    · subst hse
      simp [pyTruthy]
    · have ht : pyTruthy (PyVal.vstr s) = true := by
        simp [pyTruthy, hse]
      simp [ht, hse]

/-- C8: `_validate_list_leagues` accepts every payload; each of the other
three validators fails exactly when its required field is absent or empty
(over the spec's string-valued payload shape), and on failure the details
name that field with reason `"<field> is required"`; in particular
`validate(\x7b\x7d)` for `GetLeagueMatches` fails with reason
`"leagueId is required"`. -/
theorem c8_validation (payload : List (String × PyVal))
    (hs : ∀ p ∈ payload, ∃ s : String, p.2 = PyVal.vstr s) :
    (validate_list_leagues payload = (true, Option.none))
    ∧ ((validate_get_league_matches payload).1 = false ↔
        payload.lookup "leagueId" = Option.none ∨
        payload.lookup "leagueId" = some (PyVal.vstr ""))
    ∧ ((validate_get_team payload).1 = false ↔
        payload.lookup "teamId" = Option.none ∨
        payload.lookup "teamId" = some (PyVal.vstr ""))
    ∧ ((validate_get_match payload).1 = false ↔
        payload.lookup "matchId" = Option.none ∨
        payload.lookup "matchId" = some (PyVal.vstr ""))
    ∧ ((validate_get_league_matches payload).1 = false →
        (validate_get_league_matches payload).2 =
          some (requiredFieldDetails "leagueId"))
    ∧ ((validate_get_team payload).1 = false →
        (validate_get_team payload).2 = some (requiredFieldDetails "teamId"))
    ∧ ((validate_get_match payload).1 = false →
        (validate_get_match payload).2 = some (requiredFieldDetails "matchId"))
    ∧ (validate_get_league_matches [] =
        (false, some (PyVal.vdict [("missing_field", PyVal.vstr "leagueId"),
          ("reason", PyVal.vstr "leagueId is required")]))) :=
  ⟨rfl,
   (validateRequired_fail_iff "leagueId" payload hs).1,
   (validateRequired_fail_iff "teamId" payload hs).1,
   (validateRequired_fail_iff "matchId" payload hs).1,
   (validateRequired_fail_iff "leagueId" payload hs).2,
   (validateRequired_fail_iff "teamId" payload hs).2,
   (validateRequired_fail_iff "matchId" payload hs).2,
   rfl⟩

/-- Witness for C8 at concrete payloads. -/
theorem c8_validation_witness :
    ((validate_get_league_matches [("leagueId", PyVal.vstr "bl1")]).1 = false ↔
      List.lookup "leagueId" [("leagueId", PyVal.vstr "bl1")] = Option.none ∨
      List.lookup "leagueId" [("leagueId", PyVal.vstr "bl1")] = some (PyVal.vstr ""))
    ∧ (validate_get_league_matches [] =
        (false, some (PyVal.vdict [("missing_field", PyVal.vstr "leagueId"),
          ("reason", PyVal.vstr "leagueId is required")]))) :=
  ⟨(c8_validation [("leagueId", PyVal.vstr "bl1")]
      (fun p hp => ⟨"bl1", by simpa using congrArg Prod.snd (List.mem_singleton.mp hp)⟩)).2.1,
   (c8_validation [] (fun p hp => absurd hp (List.not_mem_nil p))).2.2.2.2.2.2.2⟩

/-- C9: every `normalize` function is total and returns its operation's fixed
result shape for every input value: the input itself (with its length as
`count`) when it has the expected list/dict shape, and the empty list (with
`count` 0) or empty dict otherwise. -/
theorem c9_normalize_total (data : PyVal) (xs : List PyVal)
    (kvs : List (String × PyVal)) :
    (normalize_list_leagues (PyVal.vlist xs) =
      PyVal.vdict [("leagues", PyVal.vlist xs), ("count", PyVal.vint xs.length)])
    ∧ (data.isList = false →
      normalize_list_leagues data =
        PyVal.vdict [("leagues", PyVal.vlist []), ("count", PyVal.vint 0)])
    ∧ (normalize_get_league_matches (PyVal.vlist xs) =
      PyVal.vdict [("matches", PyVal.vlist xs), ("count", PyVal.vint xs.length)])
    ∧ (data.isList = false →
      normalize_get_league_matches data =
        PyVal.vdict [("matches", PyVal.vlist []), ("count", PyVal.vint 0)])
    ∧ (normalize_get_team (PyVal.vdict kvs) =
      PyVal.vdict [("team", PyVal.vdict kvs)])
    ∧ (data.isDict = false →
      normalize_get_team data = PyVal.vdict [("team", PyVal.vdict [])])
    ∧ (normalize_get_match (PyVal.vdict kvs) =
      PyVal.vdict [("match", PyVal.vdict kvs)])
    ∧ (data.isDict = false →
      normalize_get_match data = PyVal.vdict [("match", PyVal.vdict [])]) := by
  refine ⟨rfl, ?_, rfl, ?_, rfl, ?_, rfl, ?_⟩
  · intro h
    cases data <;> first | rfl | exact Bool.noConfusion h
  · intro h
    cases data <;> first | rfl | exact Bool.noConfusion h
  · intro h
    cases data <;> first | rfl | exact Bool.noConfusion h
  · intro h
    cases data <;> first | rfl | exact Bool.noConfusion h

/-- Witness for C9 at concrete inputs of both the expected and an unexpected
shape. -/
theorem c9_normalize_total_witness :
    (normalize_list_leagues (PyVal.vlist [PyVal.vint 1]) =
      PyVal.vdict [("leagues", PyVal.vlist [PyVal.vint 1]),
        ("count", PyVal.vint 1)])
    ∧ (normalize_list_leagues PyVal.vnone =
      PyVal.vdict [("leagues", PyVal.vlist []), ("count", PyVal.vint 0)])
    ∧ (normalize_get_team PyVal.vnone = PyVal.vdict [("team", PyVal.vdict [])]) :=
  ⟨(c9_normalize_total PyVal.vnone [PyVal.vint 1] []).1,
   (c9_normalize_total PyVal.vnone [PyVal.vint 1] []).2.1 rfl,
   (c9_normalize_total PyVal.vnone [PyVal.vint 1] []).2.2.2.2.2.1 rfl⟩

end DecisionMapper

end Moonshot
